import Mathlib

/- Verification development for the ADK RLM minimal REPL sample
   (contributing/samples/adk_rlm_minimal): repl_state.py, repl_env.py and
   tools.py. Python strings are embedded as lists of characters, and the
   dict-based session state as an explicit structure of optional fields,
   so that every embedded operation is executable and kernel-reducible. -/

/-- A Python string, embedded as its list of characters. -/
abbrev PyStr := List Char

/-- Python str.strip: remove whitespace from both ends. -/
def pyStrip (s : PyStr) : PyStr :=
  ((s.dropWhile Char.isWhitespace).reverse.dropWhile Char.isWhitespace).reverse

/-- Python str.split with a one-character separator (keeps empty groups). -/
def pySplitChar (sep : Char) : PyStr → List PyStr
  | [] => [[]]
  | c :: rest =>
    if c = sep then [] :: pySplitChar sep rest
    else
      match pySplitChar sep rest with
      | g :: gs => (c :: g) :: gs
      | [] => [[c]]

/-- Python str.split with a multi-character separator, via explicit fuel so
that the recursion is structural. -/
def pySplitStrFuel (sep : PyStr) : Nat → PyStr → List PyStr
  | _, [] => [[]]
  | 0, s => [s]
  | n + 1, c :: rest =>
    if sep.isPrefixOf (c :: rest) then
      [] :: pySplitStrFuel sep n (List.drop (sep.length - 1) rest)
    else
      match pySplitStrFuel sep n rest with
      | g :: gs => (c :: g) :: gs
      | [] => [[c]]

/-- Python str.split with a multi-character separator. -/
def pySplitStr (sep s : PyStr) : List PyStr := pySplitStrFuel sep s.length s

/-- Python substring membership test (the `in` operator on strings). -/
def pyContains : PyStr → PyStr → Bool
  | pat, [] => pat.isEmpty
  | pat, c :: rest => pat.isPrefixOf (c :: rest) || pyContains pat rest

/-- Python newline join of a list of lines. -/
def pyJoinLines (ls : List PyStr) : PyStr := List.intercalate ['\n'] ls

/-- The apostrophe character, used by Python repr of strings and by some
denylist entries of the security denylist. -/
def apos : Char := Char.ofNat 39

/- ---------------------------------------------------------------------
   repl_state.py: the EFSM states, security levels and the state manager.
   --------------------------------------------------------------------- -/

/-- repl_state.py REPLState: the six EFSM states of the REPL. -/
inductive REPLState
  | IDLE
  | CODE_PENDING_REVIEW
  | CODE_APPROVED
  | CODE_REJECTED
  | EXECUTING
  | COMPLETE
deriving DecidableEq, Repr

/-- The string value of each state (repl_state.py lines 36-55). -/
def REPLState.value : REPLState → PyStr
  | .IDLE => "idle".data
  | .CODE_PENDING_REVIEW => "code_pending_review".data
  | .CODE_APPROVED => "code_approved".data
  | .CODE_REJECTED => "code_rejected".data
  | .EXECUTING => "executing".data
  | .COMPLETE => "complete".data

/-- The REPLState(str) enum constructor; none models the ValueError raised
on an unknown value. -/
def REPLState.ofValue (s : PyStr) : Option REPLState :=
  if s = "idle".data then some .IDLE
  else if s = "code_pending_review".data then some .CODE_PENDING_REVIEW
  else if s = "code_approved".data then some .CODE_APPROVED
  else if s = "code_rejected".data then some .CODE_REJECTED
  else if s = "executing".data then some .EXECUTING
  else if s = "complete".data then some .COMPLETE
  else none

/-- repl_state.py SecurityLevel: none / basic / strict. -/
inductive SecurityLevel
  | NONE
  | BASIC
  | STRICT
deriving DecidableEq, Repr

/-- The string value of each security level (repl_state.py lines 58-68). -/
def SecurityLevel.value : SecurityLevel → PyStr
  | .NONE => "none".data
  | .BASIC => "basic".data
  | .STRICT => "strict".data

/-- The SecurityLevel(str) enum constructor; none models the ValueError. -/
def SecurityLevel.ofValue (s : PyStr) : Option SecurityLevel :=
  if s = "none".data then some .NONE
  else if s = "basic".data then some .BASIC
  else if s = "strict".data then some .STRICT
  else none

/-- Modelled from the spec: values held by the sandboxed Python namespace
(spec section 3, SandboxNamespace). The Python interpreter is external to
this repository, so only the value forms exercised by the examples of the spec
(integers, strings, None) are modelled. -/
inductive PyVal
  | intV (n : Int)
  | strV (s : PyStr)
  | noneV
deriving DecidableEq, Repr

/-- A sandbox namespace: an ordered mapping from names to values. -/
abbrev PyNS := List (PyStr × PyVal)

/-- Dict lookup in a namespace. -/
def nsLookup (ns : PyNS) (x : PyStr) : Option PyVal :=
  (ns.find? (fun p => p.1 = x)).map (fun p => p.2)

/-- Dict assignment in a namespace: replace an existing binding in place,
otherwise append. -/
def nsInsert (ns : PyNS) (x : PyStr) (v : PyVal) : PyNS :=
  if ns.any (fun p => p.1 = x) then
    ns.map (fun p => if p.1 = x then (x, v) else p)
  else ns ++ [(x, v)]

/-- One entry of the code history list (repl_state.py lines 260-266). -/
structure HistEntry where
  code : PyStr
  stdout : PyStr
  stderr : PyStr
  iteration : Int
deriving DecidableEq, Repr

/-- The ADK session state dictionary, restricted to the repl_* keys managed
by repl_state.py.  A field holding none models an absent key. -/
structure StateDict where
  repl_state : Option PyStr
  repl_locals : Option PyNS
  repl_globals : Option PyNS
  repl_context : Option PyStr
  repl_query : Option PyStr
  repl_iteration : Option Int
  repl_max_iterations : Option Int
  repl_pending_code : Option PyStr
  repl_last_output : Option PyStr
  repl_last_error : Option PyStr
  repl_final_answer : Option PyStr
  repl_code_history : Option (List HistEntry)
  repl_security_level : Option PyStr
  repl_artifact_enabled : Option Bool
deriving DecidableEq, Repr

/-- A state dictionary with no repl_* keys set. -/
def emptyStateDict : StateDict :=
  ⟨none, none, none, none, none, none, none, none, none, none, none, none,
   none, none⟩

/-- REPLStateManager.VALID_TRANSITIONS (repl_state.py lines 101-112). -/
def VALID_TRANSITIONS : REPLState → List REPLState
  | .IDLE => [.CODE_PENDING_REVIEW, .COMPLETE]
  | .CODE_PENDING_REVIEW => [.CODE_APPROVED, .CODE_REJECTED, .COMPLETE]
  | .CODE_APPROVED => [.EXECUTING, .COMPLETE]
  | .CODE_REJECTED => [.IDLE, .COMPLETE]
  | .EXECUTING => [.IDLE, .COMPLETE]
  | .COMPLETE => []

/-- REPLStateManager.can_transition (repl_state.py lines 114-126). -/
def can_transition (from_state to_state : REPLState) : Bool :=
  (VALID_TRANSITIONS from_state).contains to_state

/-- REPLStateManager.get_state_from_dict (repl_state.py lines 128-142):
read the repl_state key with default "idle"; an unknown value falls back
to IDLE via the except branch. -/
def get_state_from_dict (st : StateDict) : REPLState :=
  (REPLState.ofValue (st.repl_state.getD REPLState.IDLE.value)).getD .IDLE

/-- REPLStateManager.transition_to (repl_state.py lines 185-213): the error
case models the raised ValueError, which leaves the dictionary unchanged
because the raise precedes the assignment. -/
def transition_to (st : StateDict) (new_state : REPLState) (validate : Bool) :
    Except PyStr (StateDict × Bool) :=
  let current := get_state_from_dict st
  if validate = true ∧ can_transition current new_state = false then
    .error ("Invalid state transition from ".data ++ current.value ++
            " to ".data ++ new_state.value)
  else
    .ok ({st with repl_state := some new_state.value}, true)

/-- REPLStateManager.increment_iteration (repl_state.py lines 215-228). -/
def increment_iteration (st : StateDict) : StateDict × Int :=
  let current := st.repl_iteration.getD 0
  let new_count := current + 1
  ({st with repl_iteration := some new_count}, new_count)

/-- REPLStateManager.initialize_state (repl_state.py lines 144-183). -/
def initialize_state (st : StateDict) (context query : Option PyStr)
    (max_iterations : Int) (security_level : SecurityLevel)
    (artifact_enabled : Bool) : StateDict :=
  { st with
    repl_state := some REPLState.IDLE.value
    repl_locals := some []
    repl_globals := some []
    repl_iteration := some 0
    repl_max_iterations := some max_iterations
    repl_last_output := some []
    repl_last_error := some []
    repl_code_history := some []
    repl_security_level := some security_level.value
    repl_artifact_enabled := some artifact_enabled
    repl_context := match context with
      | some c => some c
      | none => st.repl_context
    repl_query := match query with
      | some q => some q
      | none => st.repl_query }

/-- REPLStateManager.set_pending_code (repl_state.py lines 269-277). -/
def set_pending_code (st : StateDict) (codeStr : PyStr) : StateDict :=
  {st with repl_pending_code := some codeStr}

/-- REPLStateManager.get_pending_code (repl_state.py lines 279-289). -/
def get_pending_code (st : StateDict) : Option PyStr :=
  st.repl_pending_code

/-- REPLStateManager.clear_pending_code (repl_state.py lines 291-299). -/
def clear_pending_code (st : StateDict) : StateDict :=
  {st with repl_pending_code := none}

/-- REPLStateManager.add_code_to_history (repl_state.py lines 244-267). -/
def add_code_to_history (st : StateDict) (codeStr stdout stderr : PyStr) :
    StateDict :=
  let hist := st.repl_code_history.getD []
  let entry : HistEntry := ⟨codeStr, stdout, stderr, st.repl_iteration.getD 0⟩
  {st with repl_code_history := some (hist ++ [entry])}

/-- REPLStateManager.set_final_answer (repl_state.py lines 301-310):
stores the answer, then transitions to COMPLETE with validate=False
(which never raises). -/
def set_final_answer (st : StateDict) (answer : PyStr) : StateDict :=
  let st2 := {st with repl_final_answer := some answer}
  match transition_to st2 .COMPLETE false with
  | .ok (st3, _) => st3
  | .error _ => st2

/- ---------------------------------------------------------------------
   repl_env.py SecureInteractiveConsole.check_code_security: the denylist.
   --------------------------------------------------------------------- -/

/-- The ordered denylist of dangerous patterns (repl_env.py lines 263-275). -/
def dangerous_patterns : List (PyStr × PyStr) :=
  [("import os".data, "os module import blocked".data),
   ("import subprocess".data, "subprocess module import blocked".data),
   ("import sys".data, "sys module import blocked for security".data),
   ("__import__(".data ++ [apos] ++ "os".data ++ [apos] ++ ")".data,
    "dynamic os import blocked".data),
   ("__import__(".data ++ [apos] ++ "subprocess".data ++ [apos] ++ ")".data,
    "dynamic subprocess import blocked".data),
   ("eval(".data, "eval() is blocked".data),
   ("exec(".data, "exec() is blocked".data),
   ("compile(".data, "compile() is blocked".data),
   ("open(".data ++ [apos] ++ "/".data,
    "absolute path file access restricted".data),
   ("os.system".data, "os.system() is blocked".data),
   ("subprocess.".data, "subprocess operations blocked".data)]

/-- The for-loop of check_code_security (repl_env.py lines 279-281): return
the first pattern that occurs in the code. -/
def scanPatterns : List (PyStr × PyStr) → PyStr → Option (PyStr × PyStr)
  | [], _ => none
  | p :: rest, codeStr =>
    if pyContains p.1 codeStr then some p else scanPatterns rest codeStr

/-- SecureInteractiveConsole.check_code_security (repl_env.py 251-283). -/
def check_code_security (level : SecurityLevel) (code_str : PyStr) :
    Bool × PyStr :=
  if level = .NONE then (true, "Security checks disabled".data)
  else if level = .BASIC ∨ level = .STRICT then
    match scanPatterns dangerous_patterns code_str with
    | some p => (false, p.2)
    | none => (true, "Code passed security checks".data)
  else (true, "Code passed security checks".data)

/- ---------------------------------------------------------------------
   repl_env.py SecureInteractiveConsole._is_expression.
   --------------------------------------------------------------------- -/

/-- The statement starter prefixes (repl_env.py lines 417-421). -/
def statement_starters : List PyStr :=
  ["import ".data, "from ".data, "def ".data, "class ".data, "if ".data,
   "for ".data, "while ".data, "try:".data, "with ".data, "return ".data,
   "yield ".data, "break".data, "continue".data, "pass".data, "raise ".data,
   "assert ".data, "del ".data, "global ".data, "nonlocal ".data]

/-- line.startswith(statement_starters): true when any starter prefixes. -/
def startsWithAny (line : PyStr) : Bool :=
  statement_starters.any (fun p => p.isPrefixOf line)

/-- line.split(hash)[0]: the prefix of the line before the first hash. -/
def splitHashHead (line : PyStr) : PyStr :=
  line.takeWhile (fun c => c ≠ '#')

/-- SecureInteractiveConsole._is_expression (repl_env.py lines 408-444). -/
def is_expression (line : PyStr) : Bool :=
  if startsWithAny line then false
  else if (splitHashHead line).contains '=' then
    match line.findIdx? (fun c => c = '=') with
    | some i =>
      if 0 < i then
        if line.get? (i - 1) = some '!' ∨ line.get? (i - 1) = some '<' ∨
           line.get? (i - 1) = some '>' ∨ line.get? (i - 1) = some '=' then
          true
        else if i < line.length - 1 ∧ line.get? (i + 1) = some '=' then true
        else false
      else false
    | none => false
  else if line.getLast? = some ':' then false
  else if "print(".data.isPrefixOf line then false
  else true

/- ---------------------------------------------------------------------
   Modelled from the spec: the Python exec/eval runtime used by the
   sandbox.  The interpreter itself is external to this repository (the
   source delegates to exec and eval of the host language); following
   section 4.3 of the spec execution steps, we model the statement and
   expression forms its examples exercise: integer and string literals,
   variable references, addition, floor division, assignments, print
   calls, bare expressions, semicolon-joined expression statements,
   comments and blank lines.  Anything else is a syntax error.
   --------------------------------------------------------------------- -/

/-- The double-quote character. -/
def dqc : Char := Char.ofNat 34

/-- True when the trimmed text is a nonempty run of digits. -/
def isDigitStr (s : PyStr) : Bool := ¬ s.isEmpty && s.all Char.isDigit

/-- True when the trimmed text is a plausible identifier. -/
def isIdentStr (s : PyStr) : Bool :=
  ¬ s.isEmpty && s.all (fun c => c.isAlpha || c = '_')

/-- Decimal value of a digit string. -/
def strToNat (s : PyStr) : Nat :=
  s.foldl (fun acc c => acc * 10 + (c.toNat - 48)) 0

/-- Modelled from the spec: an expression of the sandboxed language. -/
inductive ExprAst
  | lit (v : PyVal)
  | varRef (x : PyStr)
  | add (a b : ExprAst)
  | intDiv (a b : ExprAst)
deriving DecidableEq, Repr

/-- Modelled from the spec: one source line of the sandboxed language. -/
inductive LineAst
  | blankL
  | commentL
  | importL (text : PyStr)
  | printL (e : ExprAst)
  | assignL (x : PyStr) (e : ExprAst)
  | exprL (e : ExprAst)
  | seqL (a b : ExprAst)
  | synErrL
deriving DecidableEq, Repr

/-- Modelled from the spec: parse an atomic expression (integer literal,
double-quoted string literal, or identifier). -/
def parseAtom (s : PyStr) : Option ExprAst :=
  let t := pyStrip s
  if isDigitStr t then some (.lit (.intV (strToNat t)))
  else if 2 ≤ t.length ∧ t.head? = some dqc ∧ t.getLast? = some dqc then
    some (.lit (.strV (t.drop 1).dropLast))
  else if isIdentStr t then some (.varRef t)
  else none

/-- Modelled from the spec: parse an expression (one binary + or //
between atoms, or an atom). -/
def parseExpr (s : PyStr) : Option ExprAst :=
  match pySplitStr "//".data s with
  | [a, b] =>
    match parseAtom a, parseAtom b with
    | some ea, some eb => some (.intDiv ea eb)
    | _, _ => none
  | _ =>
    match pySplitChar '+' s with
    | [a, b] =>
      match parseAtom a, parseAtom b with
      | some ea, some eb => some (.add ea eb)
      | _, _ => none
    | _ => parseAtom s

/-- Modelled from the spec: classify and parse one source line. -/
def parseLine (line : PyStr) : LineAst :=
  let t := pyStrip line
  if t.isEmpty then .blankL
  else if "#".data.isPrefixOf t then .commentL
  else if "import ".data.isPrefixOf t ∨ "from ".data.isPrefixOf t then
    .importL t
  else if "print(".data.isPrefixOf t ∧ t.getLast? = some ')' then
    match parseExpr ((t.drop 6).dropLast) with
    | some e => .printL e
    | none => .synErrL
  else
    match pySplitChar ';' t with
    | [a, b] =>
      match parseExpr a, parseExpr b with
      | some ea, some eb => .seqL ea eb
      | _, _ => .synErrL
    | [u] =>
      match pySplitChar '=' u with
      | [l, r] =>
        if isIdentStr (pyStrip l) then
          match parseExpr r with
          | some e => .assignL (pyStrip l) e
          | none => .synErrL
        else .synErrL
      | [w] =>
        match parseExpr w with
        | some e => .exprL e
        | none => .synErrL
      | _ => .synErrL
    | _ => .synErrL

/-- A runtime fault (the message of a raised Python exception). -/
abbrev PyFault := PyStr

/-- Modelled from the spec: evaluate an expression against a namespace. -/
def evalExpr (ns : PyNS) : ExprAst → Except PyFault PyVal
  | .lit v => .ok v
  | .varRef x =>
    match nsLookup ns x with
    | some v => .ok v
    | none =>
      .error ("name ".data ++ [apos] ++ x ++ [apos] ++
              " is not defined".data)
  | .add a b =>
    match evalExpr ns a with
    | .error f => .error f
    | .ok va =>
      match evalExpr ns b with
      | .error f => .error f
      | .ok vb =>
        match va, vb with
        | .intV m, .intV n => .ok (.intV (m + n))
        | .strV u, .strV w => .ok (.strV (u ++ w))
        | _, _ => .error "unsupported operand type(s) for +".data
  | .intDiv a b =>
    match evalExpr ns a with
    | .error f => .error f
    | .ok va =>
      match evalExpr ns b with
      | .error f => .error f
      | .ok vb =>
        match va, vb with
        | .intV m, .intV n =>
          if n = 0 then .error "integer division or modulo by zero".data
          else .ok (.intV (Int.fdiv m n))
        | _, _ => .error "unsupported operand type(s) for //".data

/-- Python repr of a value (used by the auto-print of the last bare
expression). -/
def PyVal.reprStr : PyVal → PyStr
  | .intV n => (toString n).data
  | .strV s => [apos] ++ s ++ [apos]
  | .noneV => "None".data

/-- Python str of a value (used by print). -/
def PyVal.strOf : PyVal → PyStr
  | .intV n => (toString n).data
  | .strV s => s
  | .noneV => "None".data

/-- The sandbox execution state: the namespace plus the text accumulated
in the captured stdout buffer. -/
structure RunSt where
  ns : PyNS
  out : PyStr
deriving DecidableEq, Repr

/-- Modelled from the spec: run one parsed line as a statement. -/
def execLineAst (st : RunSt) : LineAst → RunSt × Option PyFault
  | .blankL => (st, none)
  | .commentL => (st, none)
  | .importL _ => (st, none)
  | .printL e =>
    match evalExpr st.ns e with
    | .ok v => ({st with out := st.out ++ v.strOf ++ ['\n']}, none)
    | .error f => (st, some f)
  | .assignL x e =>
    match evalExpr st.ns e with
    | .ok v => ({st with ns := nsInsert st.ns x v}, none)
    | .error f => (st, some f)
  | .exprL e =>
    match evalExpr st.ns e with
    | .ok _ => (st, none)
    | .error f => (st, some f)
  | .seqL a b =>
    match evalExpr st.ns a with
    | .error f => (st, some f)
    | .ok _ =>
      match evalExpr st.ns b with
      | .error f => (st, some f)
      | .ok _ => (st, none)
  | .synErrL => (st, some "invalid syntax".data)

/-- Run parsed lines in order, stopping at the first fault while keeping
the output produced so far. -/
def runLineList (st : RunSt) : List LineAst → RunSt × Option PyFault
  | [] => (st, none)
  | l :: rest =>
    match execLineAst st l with
    | (st2, none) => runLineList st2 rest
    | r => r

/-- Modelled from the spec: Python exec of a code string.  Compilation
happens before any execution, so a syntax error anywhere aborts the whole
block with no effect; otherwise lines run in order with partial effects
kept up to the first runtime fault. -/
def pyExec (st : RunSt) (code_str : PyStr) : RunSt × Option PyFault :=
  let ls := (pySplitChar '\n' code_str).map parseLine
  if ls.contains .synErrL then (st, some "invalid syntax".data)
  else runLineList st ls

/-- Modelled from the spec: Python eval of a single line.  Statements are
syntax errors for eval; a print call both writes and returns None. -/
def pyEvalLine (st : RunSt) (line : PyStr) : Except PyFault (PyVal × RunSt) :=
  match parseLine line with
  | .exprL e =>
    match evalExpr st.ns e with
    | .ok v => .ok (v, st)
    | .error f => .error f
  | .printL e =>
    match evalExpr st.ns e with
    | .ok v => .ok (.noneV, {st with out := st.out ++ v.strOf ++ ['\n']})
    | .error f => .error f
  | _ => .error "invalid syntax".data

/- ---------------------------------------------------------------------
   repl_env.py SecureInteractiveConsole.execute_code.
   --------------------------------------------------------------------- -/

/-- The import-line test of execute_code (repl_env.py lines 339-344). -/
def isImportLine (l : PyStr) : Bool :=
  let s := pyStrip l
  ("import ".data.isPrefixOf s || "from ".data.isPrefixOf s) &&
    ¬ ("#".data.isPrefixOf s)

/-- The last_line_idx loop of execute_code (repl_env.py lines 370-373):
the index of the last line whose stripped text equals the target, or -1. -/
def lastLineIdx (other_lines : List PyStr) (last_line : PyStr) : Int :=
  other_lines.enum.foldl
    (fun acc p => if pyStrip p.2 = last_line then (p.1 : Int) else acc) (-1)

/-- The outcome of the capture region of execute_code: final namespace,
captured stdout and stderr, and the fault reaching the outer handler. -/
structure ConsoleOutcome where
  ns : PyNS
  stdout : PyStr
  stderr : PyStr
  fault : Option PyFault
deriving DecidableEq, Repr

/-- The body of SecureInteractiveConsole.execute_code inside
_capture_output (repl_env.py lines 332-391): split imports from the rest,
run imports, detect a trailing bare expression, run the prior statements,
evaluate and auto-print the expression, and on any inner fault fall back
to executing the whole remaining body again. -/
def consoleRun (ns0 : PyNS) (code_str : PyStr) : ConsoleOutcome :=
  let lines := pySplitChar '\n' code_str
  let import_lines := lines.filter isImportLine
  let other_lines := lines.filter (fun l => ¬ isImportLine l)
  let st0 : RunSt := ⟨ns0, []⟩
  let step1 :=
    if ¬ import_lines.isEmpty then pyExec st0 (pyJoinLines import_lines)
    else (st0, none)
  match step1 with
  | (st1, some f) => ⟨st1.ns, st1.out, [], some f⟩
  | (st1, none) =>
    if ¬ other_lines.isEmpty then
      let other_code := pyJoinLines other_lines
      let non_comment := other_lines.filter
        (fun l => ¬ (pyStrip l).isEmpty && ¬ ("#".data.isPrefixOf (pyStrip l)))
      if ¬ non_comment.isEmpty then
        let last_line := pyStrip (non_comment.getLast?.getD [])
        if is_expression last_line then
          let stmtRes :=
            if 1 < non_comment.length then
              let idx := lastLineIdx other_lines last_line
              if 0 < idx then
                pyExec st1 (pyJoinLines (other_lines.take idx.toNat))
              else (st1, none)
            else (st1, none)
          match stmtRes with
          | (st2, none) =>
            match pyEvalLine st2 last_line with
            | .ok (v, st3) =>
              if v ≠ .noneV then
                ⟨st3.ns, st3.out ++ v.reprStr ++ ['\n'], [], none⟩
              else ⟨st3.ns, st3.out, [], none⟩
            | .error _ =>
              match pyExec st2 other_code with
              | (st3, f) => ⟨st3.ns, st3.out, [], f⟩
          | (st2, some _) =>
            match pyExec st2 other_code with
            | (st3, f) => ⟨st3.ns, st3.out, [], f⟩
        else
          match pyExec st1 other_code with
          | (st2, f) => ⟨st2.ns, st2.out, [], f⟩
      else ⟨st1.ns, st1.out, [], none⟩
    else ⟨st1.ns, st1.out, [], none⟩

/-- repl_env.py REPLResult (line 50-58), without the wall-clock
execution_time field, which is not modellable. -/
structure REPLResult where
  stdout : PyStr
  stderr : PyStr
  locals_snapshot : PyNS
  success : Bool
deriving DecidableEq, Repr

/-- SecureInteractiveConsole._safe_locals_snapshot (repl_env.py 446-463):
drop names starting with an underscore; every modelled value is
serializable, so no placeholder substitution occurs here. -/
def safe_locals_snapshot (ns : PyNS) : PyNS :=
  ns.filter (fun p => ¬ ("_".data.isPrefixOf p.1))

/-- Result of SecureInteractiveConsole.execute_code together with the
final namespace and whether control reached the sandboxed exec region
(i.e. passed the security gate). -/
structure ConsoleExec where
  result : REPLResult
  ns : PyNS
  ranUserCode : Bool
deriving DecidableEq, Repr

/-- SecureInteractiveConsole.execute_code (repl_env.py lines 307-406):
security gate first (returning the raw locals dict on refusal), then the
captured run with the outer exception handler appending the fault text to
stderr and clearing the success flag. -/
def console_execute_code (level : SecurityLevel) (ns : PyNS)
    (code_str : PyStr) : ConsoleExec :=
  let chk := check_code_security level code_str
  if ¬ chk.1 then
    ⟨⟨[], "Security Error: ".data ++ chk.2, ns, false⟩, ns, false⟩
  else
    let o := consoleRun ns code_str
    match o.fault with
    | none => ⟨⟨o.stdout, o.stderr, safe_locals_snapshot o.ns, true⟩, o.ns, true⟩
    | some e =>
      ⟨⟨o.stdout, o.stderr ++ e, safe_locals_snapshot o.ns, false⟩, o.ns, true⟩

/- ---------------------------------------------------------------------
   repl_env.py OutputRouter.
   --------------------------------------------------------------------- -/

/-- repl_env.py OutputRouter (lines 69-148): two named buffers plus a
mutable current-target pointer. -/
structure OutputRouter where
  base_lm_buffer : PyStr
  sub_lm_buffer : PyStr
  current_target : PyStr
deriving DecidableEq, Repr

/-- OutputRouter.set_target (repl_env.py lines 84-91). -/
def OutputRouter.set_target (r : OutputRouter) (target : PyStr) :
    OutputRouter :=
  {r with current_target := target}

/-- OutputRouter.write (repl_env.py lines 124-134): append to the base
buffer when the current target is "base", otherwise to the sub buffer. -/
def OutputRouter.write (r : OutputRouter) (text : PyStr) : OutputRouter :=
  if r.current_target = "base".data then
    {r with base_lm_buffer := r.base_lm_buffer ++ text}
  else
    {r with sub_lm_buffer := r.sub_lm_buffer ++ text}

/-- OutputRouter.redirect (repl_env.py lines 136-148): save the current
target, switch, run the body, and restore in the finally block on both
the normal and the fault exit path (the body returns an optional fault
that is re-raised after restoration). -/
def OutputRouter.redirect (r : OutputRouter) (target : PyStr)
    (body : OutputRouter → OutputRouter × Option PyFault) :
    OutputRouter × Option PyFault :=
  let old := r.current_target
  let res := body (r.set_target target)
  (res.1.set_target old, res.2)

/- ---------------------------------------------------------------------
   tools.py: the execute_code tool.
   --------------------------------------------------------------------- -/

/-- tools.py _truncate_output (lines 263-275) with the default bound. -/
def truncate_output (output : PyStr) : PyStr :=
  if output.length ≤ 100000 then output
  else output.take 100000 ++ "\n... [truncated, ".data ++
       (toString (output.length - 100000)).data ++ " chars omitted]".data

/-- The value returned by the execute_code tool (tools.py lines 147-208),
plus a case for a ValueError escaping from transition_to. -/
inductive ToolResponse
  | pendingApproval (message codeStr : PyStr)
  | errorResp (message : PyStr)
  | completed (status stdout : PyStr) (stderr : Option PyStr)
  | raisedError (message : PyStr)
deriving DecidableEq, Repr

/-- A full run of the execute_code tool: the final state dictionary and
namespace, the response, the EFSM states entered (in order), and whether
the sandboxed exec region was reached. -/
structure ToolRun where
  st : StateDict
  ns : PyNS
  response : ToolResponse
  trace : List REPLState
  ranUserCode : Bool
deriving DecidableEq, Repr

/-- tools.py execute_code (lines 104-208), for a session whose console
holds namespace ns0.  State mutations made before a raised ValueError are
kept, mirroring the in-place dict updates of the source. -/
def tool_execute_code (st0 : StateDict) (ns0 : PyNS) (codeStr : PyStr) :
    ToolRun :=
  let current := get_state_from_dict st0
  let step1 : Except PyStr (StateDict × List REPLState) :=
    if current = .IDLE then
      match transition_to st0 .CODE_PENDING_REVIEW true with
      | .ok (st1, _) => .ok (st1, [.CODE_PENDING_REVIEW])
      | .error m => .error m
    else .ok (st0, [])
  match step1 with
  | .error m => ⟨st0, ns0, .raisedError m, [], false⟩
  | .ok (st1, tr1) =>
    match SecurityLevel.ofValue
        (st1.repl_security_level.getD SecurityLevel.BASIC.value) with
    | none => ⟨st1, ns0, .raisedError "invalid security level".data, tr1, false⟩
    | some lvl =>
      let st2 := set_pending_code st1 codeStr
      if lvl = .NONE ∨ lvl = .BASIC then
        match transition_to st2 .CODE_APPROVED true with
        | .error m => ⟨st2, ns0, .raisedError m, tr1, false⟩
        | .ok (st3, _) =>
          let tr2 := tr1 ++ [.CODE_APPROVED]
          match get_pending_code st3 with
          | none =>
            ⟨st3, ns0, .errorResp "No code pending for execution".data,
             tr2, false⟩
          | some approved =>
            if approved.isEmpty then
              ⟨st3, ns0, .errorResp "No code pending for execution".data,
               tr2, false⟩
            else
              match transition_to st3 .EXECUTING true with
              | .error m => ⟨st3, ns0, .raisedError m, tr2, false⟩
              | .ok (st4, _) =>
                let tr3 := tr2 ++ [.EXECUTING]
                let ce := console_execute_code lvl ns0 approved
                let st5 := {st4 with
                  repl_last_output := some ce.result.stdout
                  repl_last_error := some ce.result.stderr
                  repl_locals := some ce.result.locals_snapshot}
                let st6 :=
                  add_code_to_history st5 approved ce.result.stdout
                    ce.result.stderr
                let st7 := clear_pending_code st6
                match transition_to st7 .IDLE true with
                | .error m => ⟨st7, ce.ns, .raisedError m, tr3, ce.ranUserCode⟩
                | .ok (st8, _) =>
                  let tr4 := tr3 ++ [.IDLE]
                  let st9 := (increment_iteration st8).1
                  let status :=
                    if ce.result.success then "success".data else "error".data
                  let stderrOpt :=
                    if ce.result.stderr.isEmpty then none
                    else some ce.result.stderr
                  ⟨st9, ce.ns,
                   .completed status (truncate_output ce.result.stdout)
                     stderrOpt, tr4, ce.ranUserCode⟩
      else
        ⟨st2, ns0,
         .pendingApproval "Code requires security approval before execution".data
           codeStr, tr1, false⟩

/-- True exactly for the completed response of the execute_code tool
(the run that reached execution rather than returning early). -/
def isCompletedResp : ToolResponse → Bool
  | .completed _ _ _ => true
  | _ => false

/-- The iteration count read the way the source reads it (get with
default 0). -/
def iterationOf (st : StateDict) : Int :=
  st.repl_iteration.getD 0

/-- The state-mutating operations of REPLStateManager, as an operation
language for the monotonicity claim. -/
inductive ManagerOp
  | transitionToOp (s : REPLState) (validate : Bool)
  | setPendingCodeOp (codeStr : PyStr)
  | clearPendingCodeOp
  | addCodeToHistoryOp (codeStr stdout stderr : PyStr)
  | setFinalAnswerOp (answer : PyStr)
  | incrementIterationOp
  | initializeStateOp (context query : Option PyStr) (maxIter : Int)
      (level : SecurityLevel) (artifact : Bool)
deriving DecidableEq, Repr

/-- Apply a state-manager operation; a raised ValueError from
transition_to leaves the dictionary unchanged. -/
def applyOp (st : StateDict) : ManagerOp → StateDict
  | .transitionToOp s v =>
    match transition_to st s v with
    | .ok (st2, _) => st2
    | .error _ => st
  | .setPendingCodeOp c => set_pending_code st c
  | .clearPendingCodeOp => clear_pending_code st
  | .addCodeToHistoryOp c o e => add_code_to_history st c o e
  | .setFinalAnswerOp a => set_final_answer st a
  | .incrementIterationOp => (increment_iteration st).1
  | .initializeStateOp c q m l a => initialize_state st c q m l a

/-- True for the initialize_state operation, the one that resets the
iteration counter. -/
def ManagerOp.isInit : ManagerOp → Bool
  | .initializeStateOp _ _ _ _ _ => true
  | _ => false

/- ---------------------------------------------------------------------
   Spec-side definitions for the refinement claims.
   --------------------------------------------------------------------- -/

/-- The allowed-transition table exactly as the spec states it (spec
section 4.1), for comparison with can_transition. -/
def specAllowed (s t : REPLState) : Bool :=
  match s with
  | .IDLE => decide (t = .CODE_PENDING_REVIEW) || decide (t = .COMPLETE)
  | .CODE_PENDING_REVIEW =>
    decide (t = .CODE_APPROVED) || decide (t = .CODE_REJECTED) ||
      decide (t = .COMPLETE)
  | .CODE_APPROVED => decide (t = .EXECUTING) || decide (t = .COMPLETE)
  | .CODE_REJECTED => decide (t = .IDLE) || decide (t = .COMPLETE)
  | .EXECUTING => decide (t = .IDLE) || decide (t = .COMPLETE)
  | .COMPLETE => false

/-- The equals-sign classification exactly as the spec states it: the
line counts as an expression when the character immediately preceding or
following the first equals sign makes it one of the comparison operators,
and as an assignment when the equals sign is plain. -/
def specEqClassification (line : PyStr) : Bool :=
  match line.findIdx? (fun c => c = '=') with
  | some i =>
    let prev := if 0 < i then line.get? (i - 1) else none
    (decide (prev = some '!') || decide (prev = some '<') ||
     decide (prev = some '>') || decide (prev = some '=')) ||
      decide (line.get? (i + 1) = some '=')
  | none => false

/-- The initial session state of the end-to-end scenario: a fresh session
initialized at security level BASIC (the default). -/
def rlmInitState : StateDict :=
  initialize_state emptyStateDict none none 20 .BASIC false

/-- The submission of the end-to-end scenario. -/
def c2code : PyStr := "import os\nos.system(\"ls\")".data

/- ---------------------------------------------------------------------
   Helper lemmas.
   --------------------------------------------------------------------- -/

/-- Round trip of a state through its string value. -/
lemma REPLState.ofValue_value (s : REPLState) : REPLState.ofValue s.value = some s := by
  cases s <;> decide

/-- Reading the state after transition_to wrote it yields the target. -/
lemma get_state_after_write (st : StateDict) (t : REPLState) :
    get_state_from_dict {st with repl_state := some t.value} = t := by
  simp [get_state_from_dict, REPLState.ofValue_value]

/-- A successful transition_to only changes the repl_state key. -/
lemma transition_ok_preserves_iteration {st : StateDict} {s : REPLState}
    {v : Bool} {st2 : StateDict} {b : Bool}
    (h : transition_to st s v = .ok (st2, b)) :
    st2.repl_iteration = st.repl_iteration := by
  simp only [transition_to] at h
  split at h
  · simp at h
  · rw [Except.ok.injEq, Prod.mk.injEq] at h
    rw [← h.1]

@[simp] lemma set_pending_code_iteration (st : StateDict) (c : PyStr) :
    (set_pending_code st c).repl_iteration = st.repl_iteration := rfl

@[simp] lemma clear_pending_code_iteration (st : StateDict) :
    (clear_pending_code st).repl_iteration = st.repl_iteration := rfl

@[simp] lemma add_code_to_history_iteration (st : StateDict)
    (a b c : PyStr) :
    (add_code_to_history st a b c).repl_iteration = st.repl_iteration := rfl

@[simp] lemma increment_iteration_iteration (st : StateDict) :
    (increment_iteration st).1.repl_iteration =
      some (st.repl_iteration.getD 0 + 1) := rfl

/- ---------------------------------------------------------------------
   Claim theorems.
   --------------------------------------------------------------------- -/

/-- C1: for every pair of EFSM states, transition_to with validate=True
sets the stored state to the target and returns True exactly when the
target is in the allowed-transition table for the current state, and
otherwise raises an invalid-transition error, leaving the stored state
unchanged (the error value carries no updated dictionary); the table
agrees with the one the spec lists, and COMPLETE is terminal, so every
validated transition out of COMPLETE raises. -/
theorem c1_transition_to_matches_table :
    (∀ (st : StateDict) (current target : REPLState),
      get_state_from_dict st = current →
      (can_transition current target = true →
        transition_to st target true =
          .ok ({st with repl_state := some target.value}, true) ∧
        get_state_from_dict {st with repl_state := some target.value} =
          target) ∧
      (can_transition current target = false →
        transition_to st target true =
          .error ("Invalid state transition from ".data ++ current.value ++
                  " to ".data ++ target.value))) ∧
    (∀ target, can_transition .COMPLETE target = false) ∧
    (∀ s t, can_transition s t = specAllowed s t) := by
  refine ⟨?_, ?_, ?_⟩
  · intro st current target h
    constructor
    · intro hc
      refine ⟨?_, get_state_after_write st target⟩
      simp only [transition_to, h]
      rw [if_neg]
      simp [hc]
    · intro hc
      simp only [transition_to, h]
      rw [if_pos ⟨by trivial, hc⟩]
  · intro target; cases target <;> rfl
  · intro s t; cases s <;> cases t <;> rfl

/-- C1 witness: at a concrete state dictionary in state idle, the valid
transition to code_pending_review succeeds and the invalid transition to
executing raises; COMPLETE has no outgoing transition to IDLE. -/
theorem c1_transition_to_matches_table_w :
    (transition_to {emptyStateDict with repl_state := some "idle".data}
        .CODE_PENDING_REVIEW true =
      .ok ({emptyStateDict with
              repl_state := some REPLState.CODE_PENDING_REVIEW.value}, true) ∧
     get_state_from_dict {emptyStateDict with
        repl_state := some REPLState.CODE_PENDING_REVIEW.value} =
       .CODE_PENDING_REVIEW) ∧
    (transition_to {emptyStateDict with repl_state := some "idle".data}
        .EXECUTING true =
      .error ("Invalid state transition from ".data ++
              REPLState.IDLE.value ++ " to ".data ++
              REPLState.EXECUTING.value)) ∧
    can_transition .COMPLETE .IDLE = false :=
  ⟨(c1_transition_to_matches_table.1
      {emptyStateDict with repl_state := some "idle".data}
      .IDLE .CODE_PENDING_REVIEW (by decide)).1 (by decide),
   (c1_transition_to_matches_table.1
      {emptyStateDict with repl_state := some "idle".data}
      .IDLE .EXECUTING (by decide)).2 (by decide),
   c1_transition_to_matches_table.2.1 .IDLE⟩

/-- C10: reading the EFSM state from the state store never fails: a
missing repl_state key or one holding a string that is not one of the six
defined values yields IDLE instead of raising. -/
theorem c10_corrupt_state_defaults_idle (st : StateDict)
    (h : st.repl_state = none ∨
         ∃ s, st.repl_state = some s ∧ REPLState.ofValue s = none) :
    get_state_from_dict st = .IDLE := by
  unfold get_state_from_dict
  rcases h with h | ⟨s, hs, hnone⟩
  · rw [h]; decide
  · rw [hs]
    simp [hnone]

/-- C10 witness: a dictionary whose repl_state key holds the string
garbage is read as IDLE, and likewise one with the key absent. -/
theorem c10_corrupt_state_defaults_idle_w :
    get_state_from_dict
      {emptyStateDict with repl_state := some "garbage".data} = .IDLE ∧
    get_state_from_dict emptyStateDict = .IDLE :=
  ⟨c10_corrupt_state_defaults_idle _
     (Or.inr ⟨"garbage".data, rfl, by decide⟩),
   c10_corrupt_state_defaults_idle _ (Or.inl rfl)⟩

/-- C4: while the current target of the router is the secondary (sub) buffer,
a write leaves the primary (base) buffer unchanged and appends to the sub
buffer; and redirect restores the previous current target on every exit
path, whether or not the body raised a fault. -/
theorem c4_output_router_isolation_and_restore :
    (∀ (r : OutputRouter) (text : PyStr),
      r.current_target = "sub".data →
      (r.write text).base_lm_buffer = r.base_lm_buffer ∧
      (r.write text).sub_lm_buffer = r.sub_lm_buffer ++ text) ∧
    (∀ (r : OutputRouter) (target : PyStr)
       (body : OutputRouter → OutputRouter × Option PyFault),
      ((r.redirect target body).1).current_target = r.current_target) := by
  constructor
  · intro r text h
    unfold OutputRouter.write
    rw [h, if_neg (by decide)]
    exact ⟨rfl, rfl⟩
  · intro r target body
    rfl

/-- C4 witness: at a concrete router targeted at sub, a write leaves the
base buffer empty; a redirect to sub whose body writes and then faults
still restores the previous target base. -/
theorem c4_output_router_isolation_and_restore_w :
    ((OutputRouter.mk [] [] "sub".data).write "hi".data).base_lm_buffer =
        (OutputRouter.mk [] [] "sub".data).base_lm_buffer ∧
    ((OutputRouter.mk [] [] "sub".data).write "hi".data).sub_lm_buffer =
        (OutputRouter.mk [] [] "sub".data).sub_lm_buffer ++ "hi".data ∧
    ((OutputRouter.mk "x".data [] "base".data).redirect "sub".data
        (fun q => (q.write "boom".data, some "fault".data))).1.current_target =
      (OutputRouter.mk "x".data [] "base".data).current_target :=
  ⟨(c4_output_router_isolation_and_restore.1
      (OutputRouter.mk [] [] "sub".data) "hi".data rfl).1,
   (c4_output_router_isolation_and_restore.1
      (OutputRouter.mk [] [] "sub".data) "hi".data rfl).2,
   c4_output_router_isolation_and_restore.2
     (OutputRouter.mk "x".data [] "base".data) "sub".data
     (fun q => (q.write "boom".data, some "fault".data))⟩

/-- C5 counterexample: executing the one-line body 1 + 1 does not yield
stdout exactly "2": the auto-print goes through print, which appends a
newline, so the captured stdout is "2" followed by a newline. -/
theorem c5_autoprint_cex :
    (console_execute_code .BASIC [] "1 + 1".data).result.stdout ≠
      "2".data := by decide

/-- C5 amended: executing the one-line body 1 + 1 yields stdout "2"
followed by the newline appended by print, and executing the one-line
body x = 1 yields empty stdout; both succeed. -/
theorem c5_autoprint_amended :
    (console_execute_code .BASIC [] "1 + 1".data).result.stdout =
      "2\n".data ∧
    (console_execute_code .BASIC [] "1 + 1".data).result.success = true ∧
    (console_execute_code .BASIC [] "x = 1".data).result.stdout = [] ∧
    (console_execute_code .BASIC [] "x = 1".data).result.success = true := by
  decide

/-- C9: for some submitted bodies statements are executed twice: when the
last non-comment line is classified as an expression but evaluating it
raises, the executor silently re-executes the entire remaining body, so
the print side effect occurs a second time while the overall result still
reports success; a single execution of the same print produces the text
only once. -/
theorem c9_fallback_double_execution :
    (console_execute_code .BASIC []
        "print(\"a\")\n1; 2".data).result.success = true ∧
    (console_execute_code .BASIC []
        "print(\"a\")\n1; 2".data).result.stdout = "a\na\n".data ∧
    (console_execute_code .BASIC [] "print(\"a\")".data).result.stdout =
      "a\n".data ∧
    is_expression "1; 2".data = true := by decide

/-- C2 counterexample: in the end-to-end BASIC scenario the controller
never enters CODE_REJECTED: the states entered are exactly
pending-review, approved, executing, idle, refuting the claimed
PENDING_REVIEW to REJECTED to IDLE path. -/
theorem c2_basic_rejection_path_cex :
    ((tool_execute_code rlmInitState [] c2code).trace.contains
        REPLState.CODE_REJECTED) = false ∧
    (tool_execute_code rlmInitState [] c2code).trace =
      [.CODE_PENDING_REVIEW, .CODE_APPROVED, .EXECUTING, .IDLE] := by decide

/-- C2 amended: at security level BASIC the submission import os with an
os.system call moves IDLE to PENDING_REVIEW, is auto-approved and moves
through APPROVED and EXECUTING back to IDLE; the security filter flags
the first matching pattern inside the console, the sandboxed exec of user
code is never reached, and the stderr of the error response records the
reason of the matched pattern. -/
theorem c2_basic_security_block_amended :
    (tool_execute_code rlmInitState [] c2code).trace =
      [.CODE_PENDING_REVIEW, .CODE_APPROVED, .EXECUTING, .IDLE] ∧
    (tool_execute_code rlmInitState [] c2code).ranUserCode = false ∧
    (tool_execute_code rlmInitState [] c2code).response =
      .completed "error".data []
        (some ("Security Error: os module import blocked".data)) ∧
    get_state_from_dict (tool_execute_code rlmInitState [] c2code).st =
      .IDLE ∧
    check_code_security .BASIC c2code =
      (false, "os module import blocked".data) := by decide

/-- C7 counterexample: the line consisting of two equals signs followed
by 1 contains an equals sign outside any comment and does not start with
a statement keyword; the character following its first equals sign makes
it the comparison operator, so the claim classifies it as an expression,
yet the code classifies it as an assignment because the first equals sign
is at index zero. -/
theorem c7_eq_classification_cex :
    startsWithAny "==1".data = false ∧
    ((splitHashHead "==1".data).contains '=') = true ∧
    specEqClassification "==1".data = true ∧
    is_expression "==1".data = false := by decide

/-- C7 amended: for every last line that contains an equals sign outside
a trailing comment, does not start with a statement keyword, and whose
first equals sign is not the very first character, the code classifies it
as an expression exactly when the character immediately preceding or
following that equals sign makes it a comparison operator, and as an
assignment when the equals sign is plain. -/
theorem c7_eq_classification_amended (line : PyStr)
    (h1 : startsWithAny line = false)
    (h2 : ((splitHashHead line).contains '=') = true)
    (h3 : ∀ i, line.findIdx? (fun c => c = '=') = some i → 0 < i) :
    is_expression line = specEqClassification line := by
  cases hf : line.findIdx? (fun c => c = '=') with
  | none =>
    simp only [is_expression, specEqClassification, h1, h2, hf]
    simp
  | some i =>
    have hi : 0 < i := h3 i hf
    simp only [is_expression, specEqClassification, h1, h2, hf, hi]
    simp only [if_pos hi, Bool.false_eq_true, if_false, if_true]
    by_cases hp : line.get? (i - 1) = some '!' ∨ line.get? (i - 1) = some '<' ∨
        line.get? (i - 1) = some '>' ∨ line.get? (i - 1) = some '='
    · rw [if_pos hp]
      rcases hp with h | h | h | h <;> rw [List.get?_eq_getElem?] at h <;>
        simp [h]
    · rw [if_neg hp]
      push_neg at hp
      obtain ⟨p1, p2, p3, p4⟩ := hp
      rw [decide_eq_false p1, decide_eq_false p2, decide_eq_false p3,
          decide_eq_false p4]
      cases hn : line.get? (i + 1) with
      | none => simp [hn]
      | some c =>
        obtain ⟨hlt1, -⟩ := List.get?_eq_some.mp hn
        have hlt : i < line.length - 1 := by omega
        by_cases hcq : c = '='
        · subst hcq
          simp [hn, hlt]
        · simp [hn, hlt, hcq]

/-- C7 amended witness: the concrete comparison line x == 1 satisfies
the hypotheses, is classified as an expression by the code, and agrees
with the spec-side classification. -/
theorem c7_eq_classification_amended_w :
    is_expression "x == 1".data = specEqClassification "x == 1".data ∧
    is_expression "x == 1".data = true :=
  ⟨c7_eq_classification_amended "x == 1".data (by decide) (by decide)
     (fun i h => by
        have he : "x == 1".data.findIdx? (fun c => c = '=') = some 2 := by
          decide
        rw [he] at h
        have h2 : i = 2 := (Option.some.inj h).symm
        omega),
   by decide⟩

/-- The scan of the denylist returns none exactly when no pattern occurs
in the code. -/
lemma scanPatterns_none_iff (ps : List (PyStr × PyStr)) (codeStr : PyStr) :
    scanPatterns ps codeStr = none ↔
      ∀ p ∈ ps, pyContains p.1 codeStr = false := by
  induction ps with
  | nil => simp [scanPatterns]
  | cons p rest ih =>
    simp only [scanPatterns]
    by_cases hc : pyContains p.1 codeStr = true
    · rw [if_pos hc]
      simp [hc]
    · have hfalse : pyContains p.1 codeStr = false := by
        cases hb : pyContains p.1 codeStr
        · rfl
        · exact absurd hb hc
      rw [if_neg (by simp [hfalse]), ih]
      simp [hfalse]

/-- The scan of the denylist returns a pair exactly when it is the entry
at some position whose pattern occurs in the code while no earlier entry
occurs. -/
lemma scanPatterns_some_iff (ps : List (PyStr × PyStr)) (codeStr : PyStr)
    (pr : PyStr × PyStr) :
    scanPatterns ps codeStr = some pr ↔
      ∃ i, ps.get? i = some pr ∧ pyContains pr.1 codeStr = true ∧
        ∀ j, j < i → ∀ q, ps.get? j = some q →
          pyContains q.1 codeStr = false := by
  induction ps with
  | nil => simp [scanPatterns]
  | cons p rest ih =>
    simp only [scanPatterns]
    by_cases hc : pyContains p.1 codeStr = true
    · rw [if_pos hc]
      constructor
      · intro h
        have hpr : p = pr := Option.some.inj h
        subst hpr
        exact ⟨0, rfl, hc, fun j hj => absurd hj (Nat.not_lt_zero j)⟩
      · rintro ⟨i, hget, hcont, hmin⟩
        cases i with
        | zero =>
          simp only [List.get?_cons_zero, Option.some.injEq] at hget
          rw [hget]
        | succ k =>
          have h0 := hmin 0 (Nat.succ_pos k) p rfl
          rw [hc] at h0
          exact absurd h0 (by simp)
    · have hfalse : pyContains p.1 codeStr = false := by
        cases hb : pyContains p.1 codeStr
        · rfl
        · exact absurd hb hc
      rw [if_neg (by simp [hfalse]), ih]
      constructor
      · rintro ⟨i, hget, hcont, hmin⟩
        refine ⟨i + 1, by simpa using hget, hcont, ?_⟩
        intro j hj q hq
        cases j with
        | zero =>
          simp only [List.get?_cons_zero, Option.some.injEq] at hq
          rw [← hq]
          exact hfalse
        | succ k =>
          exact hmin k (by omega) q (by simpa using hq)
      · rintro ⟨i, hget, hcont, hmin⟩
        cases i with
        | zero =>
          simp only [List.get?_cons_zero, Option.some.injEq] at hget
          subst hget
          exact absurd hcont (by simp [hfalse])
        | succ k =>
          refine ⟨k, by simpa using hget, hcont, ?_⟩
          intro j hj q hq
          exact hmin (j + 1) (by omega) q (by simpa using hq)

/-- C6: for every code string checked at level BASIC or STRICT, the check
returns allowed false together with the reason of the first entry, in the
fixed order of the denylist, whose pattern occurs as a substring of the code;
and when no denylisted pattern occurs it returns allowed true. -/
theorem c6_security_first_match (level : SecurityLevel) (codeStr : PyStr)
    (h : level = .BASIC ∨ level = .STRICT) :
    (∀ pr : PyStr × PyStr,
      (∃ i, dangerous_patterns.get? i = some pr ∧
            pyContains pr.1 codeStr = true ∧
            ∀ j, j < i → ∀ q, dangerous_patterns.get? j = some q →
              pyContains q.1 codeStr = false) →
      check_code_security level codeStr = (false, pr.2)) ∧
    ((∀ p ∈ dangerous_patterns, pyContains p.1 codeStr = false) →
      check_code_security level codeStr =
        (true, "Code passed security checks".data)) := by
  have hnn : ¬ level = SecurityLevel.NONE := by
    rcases h with h | h <;> subst h <;> decide
  constructor
  · intro pr hfm
    unfold check_code_security
    rw [if_neg hnn, if_pos h,
        (scanPatterns_some_iff dangerous_patterns codeStr pr).mpr hfm]
  · intro hall
    unfold check_code_security
    rw [if_neg hnn, if_pos h,
        (scanPatterns_none_iff dangerous_patterns codeStr).mpr hall]

/-- C6 witness: code containing an operating-system import is refused at
BASIC with the reason of the first matching entry, and clean code passes
at STRICT. -/
theorem c6_security_first_match_w :
    check_code_security .BASIC "import os".data =
      (false, "os module import blocked".data) ∧
    check_code_security .STRICT "x = 1".data =
      (true, "Code passed security checks".data) :=
  ⟨(c6_security_first_match .BASIC "import os".data (Or.inl rfl)).1
     ("import os".data, "os module import blocked".data)
     ⟨0, rfl, by decide, fun j hj q hq => absurd hj (Nat.not_lt_zero j)⟩,
   (c6_security_first_match .STRICT "x = 1".data (Or.inr rfl)).2
     (by decide)⟩

/-- C3: for every submission whose sandboxed run raises a runtime fault,
the returned result carries all stdout produced before the fault, the
message of the fault appended to stderr, success false, and the namespace as
the run left it, so the session remains usable for the next submission. -/
theorem c3_partial_failure (level : SecurityLevel) (ns : PyNS)
    (codeStr : PyStr) (o : ConsoleOutcome) (e : PyFault)
    (hsec : (check_code_security level codeStr).1 = true)
    (ho : consoleRun ns codeStr = o) (hf : o.fault = some e) :
    console_execute_code level ns codeStr =
      ⟨⟨o.stdout, o.stderr ++ e, safe_locals_snapshot o.ns, false⟩, o.ns,
       true⟩ := by
  simp only [console_execute_code]
  rw [if_neg (by simp [hsec]), ho, hf]

/-- C3 witness: the submission print of a followed by a division by zero
yields stdout containing the printed text, the fault message in stderr,
success false, and the session still executes the next submission. -/
theorem c3_partial_failure_w :
    console_execute_code .BASIC [] "print(\"a\")\n1//0".data =
      ⟨⟨"a\na\n".data, "integer division or modulo by zero".data, [],
        false⟩, [], true⟩ ∧
    pyContains "a".data "a\na\n".data = true ∧
    (console_execute_code .BASIC
        (console_execute_code .BASIC [] "print(\"a\")\n1//0".data).ns
        "x = 1".data).result.success = true := by
  refine ⟨?_, by decide, by decide⟩
  exact c3_partial_failure .BASIC [] "print(\"a\")\n1//0".data
    ⟨[], "a\na\n".data, [], some "integer division or modulo by zero".data⟩
    "integer division or modulo by zero".data (by decide) (by decide) rfl

/-- C8 counterexample: initialize_state is an operation of the state
manager and resets the iteration counter to zero, so on a dictionary
whose iteration count is one it decreases the count. -/
theorem c8_iteration_monotone_cex :
    iterationOf (applyOp {emptyStateDict with repl_iteration := some 1}
        (.initializeStateOp none none 20 .BASIC false)) <
      iterationOf {emptyStateDict with repl_iteration := some 1} := by
  decide

@[simp] lemma get_state_set_pending (st : StateDict) (c : PyStr) :
    get_state_from_dict (set_pending_code st c) = get_state_from_dict st :=
  rfl

@[simp] lemma get_state_clear_pending (st : StateDict) :
    get_state_from_dict (clear_pending_code st) = get_state_from_dict st :=
  rfl

@[simp] lemma get_state_add_history (st : StateDict) (a b c : PyStr) :
    get_state_from_dict (add_code_to_history st a b c) =
      get_state_from_dict st := rfl

/-- A transition whose target is allowed from the current state succeeds
and writes the string value of the target. -/
lemma transition_to_valid (st : StateDict) (s : REPLState)
    (h : can_transition (get_state_from_dict st) s = true) :
    transition_to st s true =
      .ok ({st with repl_state := some s.value}, true) := by
  simp only [transition_to]
  rw [if_neg]
  simp [h]

/-- A transition whose target is not allowed from the current state
raises. -/
lemma transition_to_invalid (st : StateDict) (s : REPLState)
    (h : can_transition (get_state_from_dict st) s = false) :
    ∃ m, transition_to st s true = .error m := by
  simp only [transition_to]
  rw [if_pos ⟨by trivial, h⟩]
  exact ⟨_, rfl⟩

/-- Reading the state of any dictionary whose repl_state field holds the
value of a state yields that state. -/
lemma get_state_of_some_value (st : StateDict) (t : REPLState)
    (h : st.repl_state = some t.value) : get_state_from_dict st = t := by
  simp [get_state_from_dict, h, REPLState.ofValue_value]

/-- C8 amended: no state-manager operation other than initialize_state
(which resets the counter to zero) ever decreases the iteration
count, and one run of the execute-code tool changes the iteration count
by exactly one when it completes (reaches execution) and by zero when it
returns pending-approval, an early error, or raises. -/
theorem c8_iteration_monotone_amended :
    (∀ (st : StateDict) (op : ManagerOp), op.isInit = false →
      iterationOf st ≤ iterationOf (applyOp st op)) ∧
    (∀ (st : StateDict) (ns : PyNS) (codeStr : PyStr),
      iterationOf (tool_execute_code st ns codeStr).st =
        iterationOf st +
          (if isCompletedResp (tool_execute_code st ns codeStr).response
           then 1 else 0)) := by
  constructor
  · intro st op hop
    cases op with
    | transitionToOp s v =>
      simp only [applyOp]
      cases h : transition_to st s v with
      | ok p =>
        obtain ⟨st2, b⟩ := p
        have e := transition_ok_preserves_iteration h
        simp [iterationOf, e]
      | error m => simp [iterationOf]
    | setPendingCodeOp c => simp [applyOp, iterationOf, set_pending_code]
    | clearPendingCodeOp => simp [applyOp, iterationOf, clear_pending_code]
    | addCodeToHistoryOp a b c =>
      simp [applyOp, iterationOf, add_code_to_history]
    | setFinalAnswerOp a =>
      simp [applyOp, set_final_answer, transition_to, iterationOf]
    | incrementIterationOp =>
      simp [applyOp, iterationOf, increment_iteration]
    | initializeStateOp c q m l a => simp [ManagerOp.isInit] at hop
  · intro st ns codeStr
    cases hcur : get_state_from_dict st with
    | IDLE =>
      simp only [tool_execute_code]
      rw [if_pos hcur,
          transition_to_valid st .CODE_PENDING_REVIEW (by rw [hcur]; all_goals decide)]
      dsimp only
      cases hlvl : SecurityLevel.ofValue
          (st.repl_security_level.getD SecurityLevel.BASIC.value) with
      | none => simp [iterationOf, isCompletedResp]
      | some lvl =>
        dsimp only
        by_cases hbn : lvl = SecurityLevel.NONE ∨ lvl = SecurityLevel.BASIC
        · rw [if_pos hbn,
              transition_to_valid _ .CODE_APPROVED
                (by rw [get_state_set_pending,
                        get_state_of_some_value _ .CODE_PENDING_REVIEW rfl]
                    all_goals decide)]
          dsimp only [get_pending_code, set_pending_code]
          cases hae : codeStr.isEmpty with
          | true => simp [hae, iterationOf, isCompletedResp]
          | false =>
            rw [if_neg (by simp [hae]),
                transition_to_valid _ .EXECUTING
                  (by rw [get_state_of_some_value _ .CODE_APPROVED rfl]
                      all_goals decide)]
            dsimp only
            rw [transition_to_valid _ .IDLE
                  (by rw [get_state_clear_pending, get_state_add_history,
                          get_state_of_some_value _ .EXECUTING rfl]
                      all_goals decide)]
            dsimp only
            simp [iterationOf, increment_iteration, isCompletedResp,
                  clear_pending_code, add_code_to_history, set_pending_code]
        · rw [if_neg hbn]
          simp [iterationOf, isCompletedResp]
    | CODE_PENDING_REVIEW =>
      simp only [tool_execute_code]
      rw [if_neg (by rw [hcur]; all_goals decide)]
      dsimp only
      cases hlvl : SecurityLevel.ofValue
          (st.repl_security_level.getD SecurityLevel.BASIC.value) with
      | none => simp [iterationOf, isCompletedResp]
      | some lvl =>
        dsimp only
        by_cases hbn : lvl = SecurityLevel.NONE ∨ lvl = SecurityLevel.BASIC
        · rw [if_pos hbn,
              transition_to_valid _ .CODE_APPROVED
                (by rw [get_state_set_pending, hcur]; all_goals decide)]
          dsimp only [get_pending_code, set_pending_code]
          cases hae : codeStr.isEmpty with
          | true => simp [hae, iterationOf, isCompletedResp]
          | false =>
            rw [if_neg (by simp [hae]),
                transition_to_valid _ .EXECUTING
                  (by rw [get_state_of_some_value _ .CODE_APPROVED rfl]
                      all_goals decide)]
            dsimp only
            rw [transition_to_valid _ .IDLE
                  (by rw [get_state_clear_pending, get_state_add_history,
                          get_state_of_some_value _ .EXECUTING rfl]
                      all_goals decide)]
            dsimp only
            simp [iterationOf, increment_iteration, isCompletedResp,
                  clear_pending_code, add_code_to_history, set_pending_code]
        · rw [if_neg hbn]
          simp [iterationOf, isCompletedResp]
    | CODE_APPROVED =>
      simp only [tool_execute_code]
      rw [if_neg (by rw [hcur]; all_goals decide)]
      dsimp only
      cases hlvl : SecurityLevel.ofValue
          (st.repl_security_level.getD SecurityLevel.BASIC.value) with
      | none => simp [iterationOf, isCompletedResp]
      | some lvl =>
        dsimp only
        by_cases hbn : lvl = SecurityLevel.NONE ∨ lvl = SecurityLevel.BASIC
        · obtain ⟨m, hm⟩ := transition_to_invalid
            (set_pending_code st codeStr) .CODE_APPROVED
            (by rw [get_state_set_pending, hcur]; all_goals decide)
          rw [if_pos hbn, hm]
          simp [iterationOf, isCompletedResp]
        · rw [if_neg hbn]
          simp [iterationOf, isCompletedResp]
    | CODE_REJECTED =>
      simp only [tool_execute_code]
      rw [if_neg (by rw [hcur]; all_goals decide)]
      dsimp only
      cases hlvl : SecurityLevel.ofValue
          (st.repl_security_level.getD SecurityLevel.BASIC.value) with
      | none => simp [iterationOf, isCompletedResp]
      | some lvl =>
        dsimp only
        by_cases hbn : lvl = SecurityLevel.NONE ∨ lvl = SecurityLevel.BASIC
        · obtain ⟨m, hm⟩ := transition_to_invalid
            (set_pending_code st codeStr) .CODE_APPROVED
            (by rw [get_state_set_pending, hcur]; all_goals decide)
          rw [if_pos hbn, hm]
          simp [iterationOf, isCompletedResp]
        · rw [if_neg hbn]
          simp [iterationOf, isCompletedResp]
    | EXECUTING =>
      simp only [tool_execute_code]
      rw [if_neg (by rw [hcur]; all_goals decide)]
      dsimp only
      cases hlvl : SecurityLevel.ofValue
          (st.repl_security_level.getD SecurityLevel.BASIC.value) with
      | none => simp [iterationOf, isCompletedResp]
      | some lvl =>
        dsimp only
        by_cases hbn : lvl = SecurityLevel.NONE ∨ lvl = SecurityLevel.BASIC
        · obtain ⟨m, hm⟩ := transition_to_invalid
            (set_pending_code st codeStr) .CODE_APPROVED
            (by rw [get_state_set_pending, hcur]; all_goals decide)
          rw [if_pos hbn, hm]
          simp [iterationOf, isCompletedResp]
        · rw [if_neg hbn]
          simp [iterationOf, isCompletedResp]
    | COMPLETE =>
      simp only [tool_execute_code]
      rw [if_neg (by rw [hcur]; all_goals decide)]
      dsimp only
      cases hlvl : SecurityLevel.ofValue
          (st.repl_security_level.getD SecurityLevel.BASIC.value) with
      | none => simp [iterationOf, isCompletedResp]
      | some lvl =>
        dsimp only
        by_cases hbn : lvl = SecurityLevel.NONE ∨ lvl = SecurityLevel.BASIC
        · obtain ⟨m, hm⟩ := transition_to_invalid
            (set_pending_code st codeStr) .CODE_APPROVED
            (by rw [get_state_set_pending, hcur]; all_goals decide)
          rw [if_pos hbn, hm]
          simp [iterationOf, isCompletedResp]
        · rw [if_neg hbn]
          simp [iterationOf, isCompletedResp]

/-- C8 amended witness: at a concrete dictionary, increment_iteration
does not decrease the count, and a concrete completed run of the tool
raises the count from zero to one while a concrete STRICT run leaves it
at zero. -/
theorem c8_iteration_monotone_amended_w :
    iterationOf emptyStateDict ≤
      iterationOf (applyOp emptyStateDict .incrementIterationOp) ∧
    iterationOf (tool_execute_code rlmInitState [] "x = 1".data).st =
      iterationOf rlmInitState +
        (if isCompletedResp
             (tool_execute_code rlmInitState [] "x = 1".data).response
         then 1 else 0) :=
  ⟨c8_iteration_monotone_amended.1 emptyStateDict .incrementIterationOp rfl,
   c8_iteration_monotone_amended.2 rlmInitState [] "x = 1".data⟩
